import Mathlib

/-!
Verification of the sentiment-analysis CLI (app/cli.py, app/constants.py).

The definitions below are a shallow embedding of the repository's code:
pure computations become Lean functions, the command bodies become explicit
functions over an input/environment record that records externally visible
events (model loading, inference, tokenization, cache reads/writes), and
fallible steps return `Except`/`Option`.  Parts of the repository that are
only imported by `cli.py` but absent from the sources (`app.data`,
`app.utils`, `app.model`) are modelled from the specification and are marked
as such in their doc comments.
-/

namespace SentimentApp

/-! ## Python string primitives used by cli.py -/

/-- Characters stripped by Python's `str.strip()` (the ASCII ones). -/
def isPySpace (c : Char) : Bool :=
  c == ' ' || c == '\t' || c == '\n' || c == '\x0d' || c == '\x0b' || c == '\x0c'

/-- Python `s.strip()`: drop leading and trailing whitespace. -/
def pyStrip (s : String) : String :=
  String.mk (((s.data.dropWhile isPySpace).reverse.dropWhile isPySpace).reverse)

/-- Python `a or b` on strings: `b` when `a` is falsy (empty), else `a`. -/
def pyOrElse (a b : String) : String :=
  if a = "" then b else a

/-! ## The predict command (cli.py, `predict`)

`click.Path(exists=True, file_okay=True, readable=True)` validates the
`--model` option before the command body runs; the body then joins the
positional text arguments, consults piped stdin, raises
`click.UsageError("No text provided")` on empty text, loads the model and
prints one of three sentiment labels. -/

/-- Externally visible steps of a `predict` invocation, in order. -/
inductive PredictEvent
  | loadModel
  | inference
  | printLabel
deriving DecidableEq, Repr

/-- Errors a `predict` invocation surfaces to the user. -/
inductive CliError
  | badModelPath
  | usageError (msg : String)
deriving DecidableEq, Repr

/-- Inputs that determine a `predict` invocation. -/
structure PredictInput where
  args : List String
  stdinIsTty : Bool
  stdinContent : String
  modelFileOk : Bool
deriving Repr

/-- Embeds cli.py lines 114-119: `text = " ".join(text).strip()`, then, when
stdin is not a terminal, `piped_text = sys.stdin.read().strip()` and
`text = piped_text or text`. -/
def predictText (args : List String) (stdinIsTty : Bool) (stdinContent : String) : String :=
  let argText := pyStrip (String.intercalate " " args)
  if stdinIsTty then argText
  else pyOrElse (pyStrip stdinContent) argText

/-- Embeds cli.py lines 131-136: map the model's numeric prediction to the
printed sentiment label. -/
def sentimentLabel (prediction : Int) : String :=
  if prediction = 0 then "NEGATIVE"
  else if prediction = 1 then "POSITIVE"
  else "NEUTRAL"

/-- Embeds the whole `predict` command: the Click option check, the text
selection, the emptiness check, then model loading and inference (the model's
behaviour is the oracle `infer`).  Returns the outcome and the event trace. -/
def predictRun (inp : PredictInput) (infer : String → Int) :
    Except CliError String × List PredictEvent :=
  if inp.modelFileOk = false then
    (Except.error CliError.badModelPath, [])
  else
    let text := predictText inp.args inp.stdinIsTty inp.stdinContent
    if text = "" then
      (Except.error (CliError.usageError "No text provided"), [])
    else
      (Except.ok (sentimentLabel (infer text)),
        [PredictEvent.loadModel, PredictEvent.inference, PredictEvent.printLabel])

/-! ## Constants (app/constants.py)

`EMOTICON_MAP` is the lookup table of emoticon aliases, transcribed verbatim
in the source's order (constants.py lines 20-28). -/

/-- Transcription of `EMOTICON_MAP`: each label with its list of aliases. -/
def EMOTICON_MAP : List (String × List String) :=
  [ ("SMILE", [":)", ":-)", ": )", ":D", ":-D", ": D", ";)", ";-)", "; )",
               ":>", ":->", ": >", ":]", ":-]", ": ]"]),
    ("LOVE", ["<3", ":*", ":-*", ": *"]),
    ("WINK", [";)", ";-)", "; )", ";>", ";->", "; >"]),
    ("FROWN", [":(", ":-(", ": (", ":[", ":-[", ": ["]),
    ("CRY", [":'(", ": (", ":' (", ":'[", ":' ["]),
    ("SURPRISE", [":O", ":-O", ": O", ":0", ":-0", ": 0", ":o", ":-o", ": o"]),
    ("ANGRY", [">:(", ">:-(", "> :(", ">:["]) ]

/-- The alias lists of two distinct labels never share an emoticon string
(the property the specification asserts of `EMOTICON_MAP`). -/
def emoticonAliasesDisjoint : Prop :=
  ∀ p₁ ∈ EMOTICON_MAP, ∀ p₂ ∈ EMOTICON_MAP, p₁.1 ≠ p₂.1 →
    ∀ e ∈ p₁.2, e ∉ p₂.2

/-- Every (label₁, label₂, emoticon) with distinct labels whose alias lists
both hold the emoticon, computed from the table. -/
def aliasOverlaps : List (String × String × String) :=
  ((EMOTICON_MAP.map (fun p₁ =>
      (EMOTICON_MAP.map (fun p₂ =>
          if p₁.1 ≠ p₂.1 then
            (p₁.2.filter (fun e => p₂.2.contains e)).map (fun e => (p₁.1, p₂.1, e))
          else [])).flatten)).flatten)

/-! ## The dataset loader (cli.py, `_load_dataset`)

The loader checks the two per-dataset cache files, asks the user (unless
`--force-cache` short-circuits the prompt), and either reads both caches or
loads the dataset, tokenizes it and writes both caches.  The missing modules
`app.data` (`load_data`, `tokenize`) and `app.utils` (`serialize`,
`deserialize`) appear here as oracles/abstract steps; the control flow is the
source's. -/

/-- Externally visible steps of `_load_dataset`, in order. -/
inductive LoadEvent
  | readTokenCache
  | readLabelCache
  | loadData
  | tokenizeData
  | writeTokenCache
  | writeLabelCache
deriving DecidableEq, Repr

/-- Environment of one `_load_dataset` call: which cache files exist, their
(already deserialized) contents, the user's answer to the confirmation
prompt, and the raw dataset `load_data` would return. -/
structure LoadEnv where
  tokenCacheExists : Bool
  labelCacheExists : Bool
  cachedTokens : List (List String)
  cachedLabels : List Int
  confirmUseCache : Bool
  rawText : List String
  rawLabels : List Int
deriving Repr

/-- Embeds cli.py line 41: the token cache file for a dataset. -/
def tokenCachePath (cacheDir dataset : String) : String :=
  cacheDir ++ "/" ++ dataset ++ "_tokenized.pkl"

/-- Embeds cli.py line 42: the label cache file for a dataset. -/
def labelCachePath (cacheDir dataset : String) : String :=
  cacheDir ++ "/" ++ dataset ++ "_labels.pkl"

/-- Embeds cli.py lines 43-49: cached data is used when both cache files
exist and either `--force-cache` was given or the user confirmed. -/
def useCachedData (env : LoadEnv) (forceCache : Bool) : Bool :=
  env.tokenCacheExists && env.labelCacheExists && (forceCache || env.confirmUseCache)

/-- Embeds cli.py lines 51-64: read both caches, or load, tokenize and write
both caches.  `tokenizeFn` is the oracle for `app.data.tokenize`.  Returns
the token data, the label data and the event trace. -/
def loadDataset (env : LoadEnv) (forceCache : Bool)
    (tokenizeFn : List String → List (List String)) :
    (List (List String) × List Int) × List LoadEvent :=
  if useCachedData env forceCache then
    ((env.cachedTokens, env.cachedLabels),
      [LoadEvent.readTokenCache, LoadEvent.readLabelCache])
  else
    ((tokenizeFn env.rawText, env.rawLabels),
      [LoadEvent.loadData, LoadEvent.tokenizeData,
       LoadEvent.writeTokenCache, LoadEvent.writeLabelCache])

/-! ## The train command (cli.py, `train`)

The command computes the model path, asks before overwriting an existing
model file (aborting on decline), loads the dataset, trains and writes the
model file. -/

/-- Externally visible steps of a `train` invocation, in order. -/
inductive TrainEvent
  | confirmOverwrite
  | loadDatasetStep
  | trainModelStep
  | writeModel
deriving DecidableEq, Repr

/-- Environment of one `train` invocation: whether the model file already
exists, its current content (abstract), and the user's answer to the
overwrite prompt. -/
structure TrainEnv where
  modelFileExists : Bool
  existingModel : Option Nat
  confirmOverwriteAnswer : Bool
deriving Repr

/-- Embeds cli.py line 298: `f"{dataset}_{vectorizer}_ft{max_features}.pkl"`,
the model file name under the model directory. -/
def modelFileName (dataset vectorizer : String) (maxFeatures : Nat) : String :=
  s!"{dataset}_{vectorizer}_ft{maxFeatures}.pkl"

/-- Embeds cli.py lines 298-321: the overwrite guard (`click.confirm`'s
`abort=True` aborts the command when the user declines) followed by dataset
loading, training and the model write.  `trainedModel` is the oracle for the
model `train_model` would produce.  Returns whether the run aborted, the
model file's content afterwards, and the event trace. -/
def trainRun (env : TrainEnv) (overwrite : Bool) (trainedModel : Nat) :
    Bool × Option Nat × List TrainEvent :=
  if env.modelFileExists && !overwrite then
    if env.confirmOverwriteAnswer then
      (false, some trainedModel,
        [TrainEvent.confirmOverwrite, TrainEvent.loadDatasetStep,
         TrainEvent.trainModelStep, TrainEvent.writeModel])
    else
      (true, env.existingModel, [TrainEvent.confirmOverwrite])
  else
    (false, some trainedModel,
      [TrainEvent.loadDatasetStep, TrainEvent.trainModelStep, TrainEvent.writeModel])

/-! ## Cache serialization (modelled from the spec)

`app.utils.serialize`/`deserialize` and the `joblib.dump`/`joblib.load` pair
are absent from the sources; cli.py lines 51-64 call them to write and read
the caches.  The spec describes them as generic pickle-file writes/reads of
the tokenized data (a sequence of token lists) and of the label sequence. -/

/-- Atoms of the modelled pickle stream: a length marker or one character. -/
inductive PickleAtom
  | len (n : Nat)
  | ch (c : Char)
deriving DecidableEq, Repr

/-- Modelled from the spec: one string, framed as its length then its
characters, as a pickle of a token would be. -/
def encodeToken (s : String) : List PickleAtom :=
  PickleAtom.len s.data.length :: s.data.map PickleAtom.ch

/-- Modelled from the spec: one document's token list, length-framed. -/
def encodeDoc (doc : List String) : List PickleAtom :=
  PickleAtom.len doc.length :: (doc.map encodeToken).flatten

/-- Modelled from the spec: `app.utils.serialize`, writing the tokenized
data (all documents, length-framed) as one pickle blob. -/
def serialize (docs : List (List String)) : List PickleAtom :=
  PickleAtom.len docs.length :: (docs.map encodeDoc).flatten

/-- Reads `n` characters from the stream. -/
def decodeChars : Nat → List PickleAtom → Option (List Char × List PickleAtom)
  | 0, rest => some ([], rest)
  | n + 1, PickleAtom.ch c :: rest =>
      (decodeChars n rest).map (fun p => (c :: p.1, p.2))
  | _ + 1, _ => none

/-- Reads one framed string from the stream. -/
def decodeToken : List PickleAtom → Option (String × List PickleAtom)
  | PickleAtom.len n :: rest =>
      (decodeChars n rest).map (fun p => (String.mk p.1, p.2))
  | _ => none

/-- Reads `n` framed strings from the stream. -/
def decodeTokens : Nat → List PickleAtom → Option (List String × List PickleAtom)
  | 0, rest => some ([], rest)
  | n + 1, rest => do
      let p ← decodeToken rest
      let q ← decodeTokens n p.2
      pure (p.1 :: q.1, q.2)

/-- Reads one framed document from the stream. -/
def decodeDoc : List PickleAtom → Option (List String × List PickleAtom)
  | PickleAtom.len n :: rest => decodeTokens n rest
  | _ => none

/-- Reads `n` framed documents from the stream. -/
def decodeDocs : Nat → List PickleAtom → Option (List (List String) × List PickleAtom)
  | 0, rest => some ([], rest)
  | n + 1, rest => do
      let p ← decodeDoc rest
      let q ← decodeDocs n p.2
      pure (p.1 :: q.1, q.2)

/-- Modelled from the spec: `app.utils.deserialize`, reading a whole pickle
blob back into the tokenized data; fails on trailing or malformed data. -/
def deserialize (blob : List PickleAtom) : Option (List (List String)) :=
  match blob with
  | PickleAtom.len n :: rest => do
      let p ← decodeDocs n rest
      if p.2 = [] then pure p.1 else none
  | _ => none

/-- Modelled from the spec: `joblib.dump` on the label data, a length-framed
blob of the label sequence. -/
def joblibDump (labels : List Int) : List Int :=
  Int.ofNat labels.length :: labels

/-- Modelled from the spec: `joblib.load` on a label blob. -/
def joblibLoad (blob : List Int) : Option (List Int) :=
  match blob with
  | n :: rest => if Int.ofNat rest.length = n then some rest else none
  | [] => none

/-! ## Tokenization (modelled from the spec)

`app.data.tokenize` is absent from the sources.  The spec describes it as a
deterministic normalization pass — a handful of regex substitutions driven by
`URL_REGEX` plus the `EMOTICON_MAP` alias table — applied to the text rows,
and cli.py passes it a batch size and a parallel job count (lines 62,
`tokenize(text_data, batch_size=..., n_jobs=..., ...)`). -/

/-- Modelled from the spec: a recognizer for the URL shapes `URL_REGEX`
matches — an optional http/https scheme, or a dotted alphabetic domain. -/
def isUrlLike (w : String) : Bool :=
  ("http://").isPrefixOf w || ("https://").isPrefixOf w ||
    (w.data.any (fun c => c == '.') && w.data.all (fun c => c.isAlphanum || c == '.' || c == '/'))

/-- The label of the first alias list of `EMOTICON_MAP` holding the word. -/
def emoticonLabel (w : String) : Option String :=
  (EMOTICON_MAP.find? (fun p => p.2.contains w)).map (fun p => p.1)

/-- Modelled from the spec: normalize one word — URLs collapse to a URL
marker, emoticons to their label, anything else is kept. -/
def normalizeWord (w : String) : String :=
  if isUrlLike w then "URL"
  else match emoticonLabel w with
       | some l => l
       | none => w

/-- Modelled from the spec: tokenize one text row by splitting on spaces and
normalizing each word. -/
def normalizeText (s : String) : List String :=
  (s.splitOn " ").map normalizeWord

/-- Splits a list into batches of `b` (the whole list as one batch when
`b = 0`, so the function is total). -/
def chunkList (b : Nat) (l : List α) : List (List α) :=
  match l with
  | [] => []
  | x :: xs =>
      if b = 0 then [x :: xs]
      else (x :: xs).take b :: chunkList b ((x :: xs).drop b)
termination_by l.length
decreasing_by
  simp only [List.length_drop, List.length_cons]
  omega

/-- Modelled from the spec: `app.data.tokenize` — the rows are split into
batches of `batchSize` (handed to the library's parallel pool) and each row
is normalized; the batch results are concatenated in order. -/
def tokenize (batchSize : Nat) (texts : List String) : List (List String) :=
  ((chunkList batchSize texts).map (fun batch => batch.map normalizeText)).flatten

/-! ## Training (modelled from the spec)

`app.model.train_model` is absent from the sources.  The spec says training
on a fixed seed yields a reproducible accuracy figure; cli.py passes the
`--seed` option straight through (line 313), with `-1` meaning a random
seed (line 267).  The model: the accuracy is a deterministic function of the
data, the hyperparameters and the effective seed, and the effective seed
draws on the environment's entropy only when the seed is `-1`. -/

/-- Hyperparameters the `train` command passes to `train_model`. -/
structure TrainParams where
  vectorizer : String
  maxFeatures : Nat
  minDf : Nat
  cv : Nat
deriving DecidableEq, Repr

/-- Modelled from the spec: the seed the library actually uses — the
environment's entropy when `--seed -1` was given, else the given seed. -/
def effectiveSeed (seed : Int) (entropy : Nat) : Nat :=
  if seed = -1 then entropy else seed.toNat

/-- Size fingerprint of the token data, a stand-in for its feature content. -/
def tokenWeight (tokens : List (List String)) : Nat :=
  (tokens.map (fun doc => (doc.map String.length).sum + doc.length)).sum

/-- Modelled from the spec: `app.model.train_model`'s reported accuracy — a
deterministic function of the token data, label data, hyperparameters and
the effective seed (scaled to ten-thousandths of 100%). -/
def trainAccuracy (tokens : List (List String)) (labels : List Int)
    (p : TrainParams) (seed : Int) (entropy : Nat) : Nat :=
  (effectiveSeed seed entropy + tokenWeight tokens + labels.length
    + p.vectorizer.length + 3 * p.maxFeatures + 5 * p.minDf + 7 * p.cv) % 10001

/-! ## Helper lemmas -/

theorem stringMk_data (s : String) : String.mk s.data = s := rfl

theorem decodeChars_encode (cs : List Char) (rest : List PickleAtom) :
    decodeChars cs.length (cs.map PickleAtom.ch ++ rest) = some (cs, rest) := by
  induction cs with
  | nil => rfl
  | cons c cs ih => simp [decodeChars, ih]

theorem decodeToken_encode (s : String) (rest : List PickleAtom) :
    decodeToken (encodeToken s ++ rest) = some (s, rest) := by
  show (decodeChars s.data.length (s.data.map PickleAtom.ch ++ rest)).map
      (fun p => (String.mk p.1, p.2)) = some (s, rest)
  rw [decodeChars_encode]
  rfl

theorem decodeTokens_encode (l : List String) (rest : List PickleAtom) :
    decodeTokens l.length ((l.map encodeToken).flatten ++ rest) = some (l, rest) := by
  induction l generalizing rest with
  | nil => rfl
  | cons s l ih =>
      simp only [List.map_cons, List.flatten_cons, List.length_cons, List.append_assoc]
      simp [decodeTokens, decodeToken_encode, ih]

theorem decodeDoc_encode (doc : List String) (rest : List PickleAtom) :
    decodeDoc (encodeDoc doc ++ rest) = some (doc, rest) := by
  simp [encodeDoc, decodeDoc, decodeTokens_encode]

theorem decodeDocs_encode (docs : List (List String)) (rest : List PickleAtom) :
    decodeDocs docs.length ((docs.map encodeDoc).flatten ++ rest) = some (docs, rest) := by
  induction docs generalizing rest with
  | nil => rfl
  | cons d docs ih =>
      simp only [List.map_cons, List.flatten_cons, List.length_cons, List.append_assoc]
      simp [decodeDocs, decodeDoc_encode, ih]

theorem chunkList_flatten (b : Nat) (hb : b ≠ 0) (l : List α) :
    (chunkList b l).flatten = l := by
  induction l using chunkList.induct b with
  | case1 => simp [chunkList]
  | case2 x xs h => exact absurd h hb
  | case3 x xs h ih =>
      rw [chunkList]
      simp only [if_neg hb, List.flatten_cons, ih, List.take_append_drop]

theorem sentimentLabel_cases (p : Int) :
    (sentimentLabel p = "NEGATIVE" ∨ sentimentLabel p = "POSITIVE"
      ∨ sentimentLabel p = "NEUTRAL")
    ∧ (p = 0 → sentimentLabel p = "NEGATIVE")
    ∧ (p = 1 → sentimentLabel p = "POSITIVE")
    ∧ (p ≠ 0 → p ≠ 1 → sentimentLabel p = "NEUTRAL") := by
  unfold sentimentLabel
  by_cases h0 : p = 0 <;> by_cases h1 : p = 1 <;> simp [h0, h1]

/-- Spec reading of predict's text selection (the wording of claim C8): the
joined, stripped argument text, replaced by the stripped piped stdin exactly
when stdin is not a terminal and that piped text is non-empty. -/
def specPredictText (args : List String) (stdinIsTty : Bool) (stdinContent : String) : String :=
  let argText := pyStrip (String.intercalate " " args)
  let piped := pyStrip stdinContent
  if stdinIsTty = false ∧ piped ≠ "" then piped else argText

/-! ## Claim theorems -/

/-- C1: every sentiment the predict command prints is one of exactly the three
labels — NEGATIVE when the model's prediction is 0, POSITIVE when it is 1 and
NEUTRAL for every other prediction; no other label is printed. -/
theorem C1_predict_label_set (inp : PredictInput) (infer : String → Int) (lbl : String)
    (h : (predictRun inp infer).1 = Except.ok lbl) :
    (lbl = "NEGATIVE" ∨ lbl = "POSITIVE" ∨ lbl = "NEUTRAL")
    ∧ (infer (predictText inp.args inp.stdinIsTty inp.stdinContent) = 0 → lbl = "NEGATIVE")
    ∧ (infer (predictText inp.args inp.stdinIsTty inp.stdinContent) = 1 → lbl = "POSITIVE")
    ∧ (infer (predictText inp.args inp.stdinIsTty inp.stdinContent) ≠ 0 →
        infer (predictText inp.args inp.stdinIsTty inp.stdinContent) ≠ 1 →
        lbl = "NEUTRAL") := by
  simp only [predictRun] at h
  split at h
  · simp at h
  · split at h
    · simp at h
    · replace h : sentimentLabel
          (infer (predictText inp.args inp.stdinIsTty inp.stdinContent)) = lbl := by
        simpa using h
      subst h
      exact sentimentLabel_cases _

/-- Witness for C1: a concrete invocation whose model predicts 1 prints
POSITIVE. -/
theorem C1_predict_label_set_witness :
    (("POSITIVE" : String) = "NEGATIVE" ∨ ("POSITIVE" : String) = "POSITIVE"
      ∨ ("POSITIVE" : String) = "NEUTRAL")
    ∧ ((1 : Int) = 0 → ("POSITIVE" : String) = "NEGATIVE")
    ∧ ((1 : Int) = 1 → ("POSITIVE" : String) = "POSITIVE")
    ∧ ((1 : Int) ≠ 0 → (1 : Int) ≠ 1 → ("POSITIVE" : String) = "NEUTRAL") :=
  C1_predict_label_set ⟨["good"], true, "", true⟩ (fun _ => 1) "POSITIVE" rfl

/-- C2: the predict command fails with the usage error message when no input
text is available and fails on a bad model path, and in every error case it
stops before loading the model or running inference (no recovery events). -/
theorem C2_predict_error_paths (inp : PredictInput) (infer : String → Int) :
    (inp.modelFileOk = false →
      predictRun inp infer = (Except.error CliError.badModelPath, []))
    ∧ (inp.modelFileOk = true →
      predictText inp.args inp.stdinIsTty inp.stdinContent = "" →
      predictRun inp infer = (Except.error (CliError.usageError "No text provided"), []))
    ∧ (∀ err evs, predictRun inp infer = (Except.error err, evs) →
      PredictEvent.loadModel ∉ evs ∧ PredictEvent.inference ∉ evs) := by
  refine ⟨fun hm => ?_, fun hm hte => ?_, fun err evs h => ?_⟩
  · simp [predictRun, hm]
  · simp [predictRun, hm, hte]
  · simp only [predictRun] at h
    split at h
    · have : evs = [] := (congrArg Prod.snd h).symm
      subst this
      simp
    · split at h
      · have : evs = [] := (congrArg Prod.snd h).symm
        subst this
        simp
      · exact absurd (congrArg Prod.fst h) (by simp)

/-- C3: the modelled cache serialization round-trips losslessly — the token
blob deserializes back to the tokenized data that was written, and likewise
the label blob. -/
theorem C3_cache_roundtrip (docs : List (List String)) (labels : List Int) :
    deserialize (serialize docs) = some docs
    ∧ joblibLoad (joblibDump labels) = some labels := by
  constructor
  · have h := decodeDocs_encode docs []
    rw [List.append_nil] at h
    simp [serialize, deserialize, h]
  · simp [joblibDump, joblibLoad]

/-- C4: when both cache files exist and the cached data is accepted (by
`--force-cache` or by the user's confirmation), `_load_dataset` never invokes
tokenization and returns exactly the cached token and label data. -/
theorem C4_cached_run_skips_tokenization (env : LoadEnv) (forceCache : Bool)
    (tokenizeFn : List String → List (List String))
    (hT : env.tokenCacheExists = true) (hL : env.labelCacheExists = true)
    (hU : forceCache = true ∨ env.confirmUseCache = true) :
    loadDataset env forceCache tokenizeFn =
      ((env.cachedTokens, env.cachedLabels),
        [LoadEvent.readTokenCache, LoadEvent.readLabelCache])
    ∧ LoadEvent.tokenizeData ∉ (loadDataset env forceCache tokenizeFn).2 := by
  have hu : useCachedData env forceCache = true := by
    unfold useCachedData
    rcases hU with h | h <;> simp [hT, hL, h]
  refine ⟨by simp [loadDataset, hu], ?_⟩
  simp [loadDataset, hu]

/-- Witness for C4: a concrete environment with both caches present and
`--force-cache` set returns the cached data without tokenizing. -/
theorem C4_cached_run_skips_tokenization_witness :
    loadDataset ⟨true, true, [["a"]], [1], false, [], []⟩ true (fun _ => []) =
      (([["a"]], [1]), [LoadEvent.readTokenCache, LoadEvent.readLabelCache])
    ∧ LoadEvent.tokenizeData ∉
        (loadDataset ⟨true, true, [["a"]], [1], false, [], []⟩ true (fun _ => [])).2 :=
  C4_cached_run_skips_tokenization ⟨true, true, [["a"]], [1], false, [], []⟩ true
    (fun _ => []) rfl rfl (Or.inl rfl)

/-- C9: `_load_dataset` uses cached data only when both cache files exist,
and with either cache file missing (even under `--force-cache`) it falls
through to the full load-and-tokenize path and writes both cache files. -/
theorem C9_cache_requires_both_files (env : LoadEnv) (forceCache : Bool)
    (tokenizeFn : List String → List (List String)) :
    (useCachedData env forceCache = true →
      env.tokenCacheExists = true ∧ env.labelCacheExists = true)
    ∧ (env.tokenCacheExists = false ∨ env.labelCacheExists = false →
      loadDataset env forceCache tokenizeFn =
        ((tokenizeFn env.rawText, env.rawLabels),
          [LoadEvent.loadData, LoadEvent.tokenizeData,
           LoadEvent.writeTokenCache, LoadEvent.writeLabelCache])) := by
  constructor
  · intro h
    unfold useCachedData at h
    simp only [Bool.and_eq_true] at h
    exact ⟨h.1.1, h.1.2⟩
  · intro h
    have hu : useCachedData env forceCache = false := by
      unfold useCachedData
      rcases h with h | h <;> simp [h]
    simp [loadDataset, hu]

/-- C5: with a non-negative `--seed`, the reported training accuracy does not
depend on the environment's entropy — two runs on the same data and
hyperparameters report the same accuracy. -/
theorem C5_train_seed_reproducible (tokens : List (List String)) (labels : List Int)
    (p : TrainParams) (seed : Int) (e₁ e₂ : Nat) (h : 0 ≤ seed) :
    trainAccuracy tokens labels p seed e₁ = trainAccuracy tokens labels p seed e₂ := by
  have hne : seed ≠ -1 := by omega
  unfold trainAccuracy effectiveSeed
  simp only [if_neg hne]

/-- Witness for C5: two concrete runs with seed 42 and different entropy
report the same accuracy. -/
theorem C5_train_seed_reproducible_witness :
    trainAccuracy [["a"]] [0] ⟨"tfidf", 20000, 5, 5⟩ 42 3 =
      trainAccuracy [["a"]] [0] ⟨"tfidf", 20000, 5, 5⟩ 42 999 :=
  C5_train_seed_reproducible [["a"]] [0] ⟨"tfidf", 20000, 5, 5⟩ 42 3 999 (by decide)

/-- C6 counterexample: the alias lists of `EMOTICON_MAP` are not pairwise
disjoint — SMILE and WINK share the emoticon string of a winking face, and
FROWN and CRY share one as well. -/
theorem C6_emoticon_overlap_counterexample :
    (¬ emoticonAliasesDisjoint)
    ∧ ("SMILE", "WINK", ";)") ∈ aliasOverlaps
    ∧ ("FROWN", "CRY", ": (") ∈ aliasOverlaps := by
  refine ⟨?_, by decide, by decide⟩
  unfold emoticonAliasesDisjoint
  decide

/-- C6 amended: the alias lists of the seven labels are pairwise disjoint
except that SMILE and WINK share three winking-face strings and FROWN and CRY
share one frowning-face string; every other emoticon string in the table
belongs to exactly one label. -/
theorem C6_emoticon_overlap_exact :
    aliasOverlaps =
      [("SMILE", "WINK", ";)"), ("SMILE", "WINK", ";-)"), ("SMILE", "WINK", "; )"),
       ("WINK", "SMILE", ";)"), ("WINK", "SMILE", ";-)"), ("WINK", "SMILE", "; )"),
       ("FROWN", "CRY", ": ("), ("CRY", "FROWN", ": (")] := by
  decide

/-- C7: the modelled tokenization pass is deterministic — its output does not
depend on the batch size it is run with, and it equals the per-row
normalization of the input. -/
theorem C7_tokenize_batch_independent (texts : List String) (b₁ b₂ : Nat)
    (h₁ : b₁ ≠ 0) (h₂ : b₂ ≠ 0) :
    tokenize b₁ texts = tokenize b₂ texts
    ∧ tokenize b₁ texts = texts.map normalizeText := by
  have key : ∀ b, b ≠ 0 → tokenize b texts = texts.map normalizeText := by
    intro b hb
    show ((chunkList b texts).map (List.map normalizeText)).flatten = _
    rw [← List.map_flatten, chunkList_flatten b hb]
  exact ⟨(key b₁ h₁).trans (key b₂ h₂).symm, key b₁ h₁⟩

/-- Witness for C7: a concrete two-row input tokenized with batch sizes 1 and
2 gives identical output. -/
theorem C7_tokenize_batch_independent_witness :
    tokenize 1 ["good movie :)", "bad http://spam.com"] =
      tokenize 2 ["good movie :)", "bad http://spam.com"]
    ∧ tokenize 1 ["good movie :)", "bad http://spam.com"] =
      (["good movie :)", "bad http://spam.com"]).map normalizeText :=
  C7_tokenize_batch_independent ["good movie :)", "bad http://spam.com"] 1 2
    (by decide) (by decide)

/-- C8: the text the predict command classifies is the space-joined, stripped
argument text, replaced by the stripped piped stdin exactly when stdin is not
a terminal and the piped text is non-empty; non-empty piped input always
takes precedence. -/
theorem C8_predict_text_selection (args : List String) (tty : Bool) (stdinText : String) :
    predictText args tty stdinText = specPredictText args tty stdinText
    ∧ (tty = false → pyStrip stdinText ≠ "" →
        predictText args tty stdinText = pyStrip stdinText) := by
  constructor
  · unfold predictText specPredictText pyOrElse
    cases tty <;> by_cases hp : pyStrip stdinText = "" <;> simp [hp]
  · intro htty hp
    subst htty
    simp [predictText, pyOrElse, hp]

/-- C10: the train command writes its model under the name
`<dataset>_<vectorizer>_ft<max_features>.pkl`, and when the model file exists
and `--overwrite` is absent, a declined confirmation aborts the run before
loading data or training, leaving the model file's content unchanged. -/
theorem C10_train_overwrite_guard (env : TrainEnv) (overwrite : Bool)
    (trainedModel : Nat) (dataset vectorizer : String) (maxFeatures : Nat) :
    modelFileName dataset vectorizer maxFeatures =
      dataset ++ "_" ++ vectorizer ++ "_ft" ++ toString maxFeatures ++ ".pkl"
    ∧ (env.modelFileExists = true → overwrite = false →
        env.confirmOverwriteAnswer = false →
        trainRun env overwrite trainedModel =
          (true, env.existingModel, [TrainEvent.confirmOverwrite])) := by
  constructor
  · simp only [modelFileName, String.append_assoc]
    rfl
  · intro hm ho hc
    simp [trainRun, hm, ho, hc]

end SentimentApp
